import Mathlib

/-!
# Verification of the MES user-portal org-unit and permission code

Shallow embedding of `src/unnamed/part_001` (the permission resolver:
`has`, `hasOverUser`, `hasOverUnit`, `hasOverOffice`, `normalizeOfficer`)
and `src/controllers/org-units.js` (the org-unit routes: search parameter
handling, create, update lookup, delete), together with theorems about
them.

Collections are Lean lists, Bookshelf models are Lean structures with
`Option` fields for attributes that may be absent (`model.has(f)` is
`f.isSome`), and promise chains that may reject become `Except` values.
JavaScript quirks that the theorems depend on (array truthiness,
`NaN !== x`, falsiness of `0` and `""`) are embedded by dedicated,
documented definitions rather than silently cleaned up.
-/

/-- An office row: `id`, `userID`, the `roles` attribute (absent or a list
of permission strings), and the possibly-absent `parentOrgID`,
`parentOfficeID` and `parentID` attributes, mirroring the fields that
`src/unnamed/part_001` reads off office models. -/
structure Office where
  id : Nat
  userID : Nat
  roles : Option (List String)
  parentOrgID : Option Nat
  parentOfficeID : Option Nat
  parentID : Option Nat
deriving Repr, DecidableEq

/-- An org-unit row with the fields `src/controllers/org-units.js` and the
permission resolver read: `id`, optional `code`, `name`, `type` string,
optional `parentID`, the materialized `parentPath`, nested-set bounds
`lft`/`rgt`, and the optional free-form attributes. -/
structure OrgUnit where
  id : Nat
  code : Option String
  name : String
  type : String
  parentID : Option Nat
  parentPath : String
  lft : Nat
  rgt : Nat
  venueType : Option String
  location : Option String
  defDoc : Option String
  website : Option String
deriving Repr, DecidableEq

/-- A user row: `id` and the possibly-absent `orgUnit` foreign key. -/
structure User where
  id : Nat
  orgUnit : Option Nat
deriving Repr, DecidableEq

/-- The errors the permission resolver can produce.  Each constructor
corresponds to one `throw` site in `src/unnamed/part_001` (plus
`outOfFuel`, the artifact of bounding the `hasOverOffice` recursion with
fuel: it marks a computation that has not terminated within the bound). -/
inductive PermError where
  /-- `'User has no offices'` -/
  | userHasNoOffices
  /-- `'No offices with permission'` (dead code in the source, see `jsArrayFalsy`) -/
  | noOfficesWithPermission
  /-- `'Officer not found in chain'` -/
  | chainNotFound
  /-- `'Not national officer'` -/
  | notNationalOfficer
  /-- `'Office not in chain'` -/
  | officeNotInChain
  /-- `'Org unit not found.'` (404) -/
  | orgUnitNotFound
  /-- `'Office not found.'` (404) -/
  | officeNotFound
  /-- fuel exhausted: the recursion has not terminated within the bound -/
  | outOfFuel
deriving Repr, DecidableEq

/-- The `officer` argument of the resolver: either a user (model or id —
`normalizeOfficer` reduces a model to its id), or an already-resolved
collection of offices (`normalizeOfficer` passes anything with a `filter`
method straight through). -/
inductive OfficerArg where
  | userId (id : Nat)
  | resolved (offices : List Office)
deriving Repr, DecidableEq

/-- The `unit`/`office` arguments of `hasOverUnit`/`hasOverOffice`: a model
or a bare integer id. -/
inductive UnitArg where
  | byId (id : Nat)
  | model (u : OrgUnit)
deriving Repr, DecidableEq

/-- JavaScript truthiness of an array value: `![]` is `false`, so an array
is *always* truthy.  The check `if ( ! offices )` in `has`
(src/unnamed/part_001 line 29) tests the truthiness of the array returned
by `filter` and therefore never fires; this definition embeds that fact. -/
def jsArrayFalsy (_ : List Office) : Bool := false

/-- `normalizeOfficer` (src/unnamed/part_001 lines 196-205): a collection
is passed through unchanged; otherwise the officer is reduced to a user id
and the offices with that `userID` are fetched with `require: true`, which
rejects when the result set is empty. -/
def normalizeOfficer (odb : List Office) : OfficerArg → Except PermError (List Office)
  | .resolved offices => .ok offices
  | .userId uid =>
    let offices := odb.filter (fun o => o.userID == uid)
    if offices.isEmpty then .error .userHasNoOffices else .ok offices

/-- Whether an office model has the `roles` attribute and that attribute
contains the permission: `office.has('roles') && -1 !== office.get('roles').indexOf(permission)`. -/
def hasRole (o : Office) (permission : String) : Bool :=
  match o.roles with
  | some rs => rs.contains permission
  | none => false

/-- `has` (src/unnamed/part_001 lines 17-34): normalize the officer (any
rejection becomes `'User has no offices'`), filter to the offices carrying
the permission, and return them.  The source then tests `if ( ! offices )`
— always false for an array (`jsArrayFalsy`) — so the
`'No offices with permission'` throw is unreachable. -/
def has (odb : List Office) (permission : String) (officer : OfficerArg) :
    Except PermError (List Office) := do
  let offices ←
    match normalizeOfficer odb officer with
    | .ok offices => Except.ok offices
    | .error _ => Except.error PermError.userHasNoOffices
  let granted := offices.filter (fun o => hasRole o permission)
  if jsArrayFalsy granted then Except.error PermError.noOfficesWithPermission
  else Except.ok granted

/-- Splits a character list at `'.'` separators. -/
def splitDot : List Char → List (List Char)
  | [] => [[]]
  | c :: cs =>
    let rest := splitDot cs
    if c == '.' then [] :: rest
    else
      match rest with
      | [] => [[c]]
      | seg :: segs => (c :: seg) :: segs

/-- Reads a list of decimal digit characters as a number; `none` if the
list is empty or contains a non-digit. -/
def digitsToNat (cs : List Char) : Option Nat :=
  if cs.isEmpty then none
  else
    cs.foldl
      (fun acc c =>
        match acc with
        | none => none
        | some n => if c.isDigit then some (n * 10 + (c.toNat - 48)) else none)
      (some 0)

/-- The numeric segments of a dot-joined `parentPath` string, e.g.
`"1.2.5"` becomes `[1, 2, 5]`. -/
def parsePath (s : String) : List Nat :=
  (splitDot s.data).filterMap digitsToNat

/-- Modelled from the spec: `getParents` lives in `models/org_units.js`,
which is not under `src/`.  Per the spec, the ancestors of a unit are
"the chain implied by `parentPath`" ("dot-joined chain of ancestor IDs
ending in own ID"), returned nearest first; we resolve each ancestor id
named by `parentPath` (all segments but the last, nearest first) against
the unit table. -/
def getParents (udb : List OrgUnit) (u : OrgUnit) : List OrgUnit :=
  ((parsePath u.parentPath).dropLast.reverse).filterMap
    (fun i => udb.find? (fun v => v.id == i))

/-- The `for` loop over `parents` shared by `hasOverUnit` and
`hasOverUser`: return `true` at the first parent whose id occurs among the
granting offices' org ids, and throw `'Officer not found in chain'` when
the loop finishes without a hit. -/
def chainScan (officeOrgs : List (Option Nat)) : List OrgUnit → Except PermError Bool
  | [] => .error .chainNotFound
  | p :: ps =>
    if officeOrgs.any (fun x => x == some p.id) then .ok true
    else chainScan officeOrgs ps

/-- Fetch an org unit by id with `require: true`; a miss becomes the 404
`'Org unit not found.'`. -/
def fetchUnit (udb : List OrgUnit) (i : Nat) : Except PermError OrgUnit :=
  match udb.find? (fun v => v.id == i) with
  | some u => .ok u
  | none => .error .orgUnitNotFound

/-- The unit-resolution step of `hasOverUnit` (src/unnamed/part_001 lines
93-110): a missing/null unit defaults to National (`if ( ! unit ) unit = 1`;
the id `0` is also falsy in JavaScript and defaults the same way), an
integer id is fetched, a model is used as-is. -/
def resolveUnitArg (udb : List OrgUnit) : Option UnitArg → Except PermError OrgUnit
  | none => fetchUnit udb 1
  | some (.byId i) => if i == 0 then fetchUnit udb 1 else fetchUnit udb i
  | some (.model m) => .ok m

/-- `hasOverUnit` (src/unnamed/part_001 lines 91-138): resolve the granting
offices, resolve the unit, then pass if some granting office's
`parentOrgID` is `1` (National), equals the unit's id, or equals the id of
one of the unit's parents; otherwise throw `'Officer not found in chain'`. -/
def hasOverUnit (udb : List OrgUnit) (odb : List Office) (unit : Option UnitArg)
    (permission : String) (officer : OfficerArg) : Except PermError Bool := do
  let offices ← has odb permission officer
  let u ← resolveUnitArg udb unit
  let officeOrgs := offices.map (fun o => o.parentOrgID)
  if officeOrgs.any (fun x => x == some 1) then Except.ok true
  else if officeOrgs.any (fun x => x == some u.id) then Except.ok true
  else chainScan officeOrgs (getParents udb u)

/-- `hasOverUser` (src/unnamed/part_001 lines 44-81): resolve the granting
offices; if the user has an `orgUnit`, pass when some granting office's
`parentOrgID` equals it or one of its unit's parents (else
`'Officer not found in chain'`); if the user has none, pass only for a
National office (`parentOrgID` = 1, else `'Not national officer'`).  The
parents of the user's unit come from the related org-unit model; a related
unit absent from the table yields no parents. -/
def hasOverUser (udb : List OrgUnit) (odb : List Office) (user : User)
    (permission : String) (officer : OfficerArg) : Except PermError Bool := do
  let offices ← has odb permission officer
  let officeOrgs := offices.map (fun o => o.parentOrgID)
  match user.orgUnit with
  | some uid =>
    if officeOrgs.any (fun x => x == some uid) then Except.ok true
    else
      match udb.find? (fun v => v.id == uid) with
      | some unit => chainScan officeOrgs (getParents udb unit)
      | none => chainScan officeOrgs []
  | none =>
    if officeOrgs.any (fun x => x == some 1) then Except.ok true
    else Except.error PermError.notNationalOfficer

/-- Fetch an office by id with `require: true`; a miss becomes the 404
`'Office not found.'`. -/
def fetchOffice (odb : List Office) (i : Nat) : Except PermError Office :=
  match odb.find? (fun o => o.id == i) with
  | some o => .ok o
  | none => .error .officeNotFound

/-- The `office` argument of `hasOverOffice`: a model or a bare id. -/
inductive OfficeArg where
  | byId (id : Nat)
  | model (o : Office)
deriving Repr, DecidableEq

/-- `hasOverOffice` (src/unnamed/part_001 lines 148-188), bounded by fuel
because the source recursion has no cycle guard: resolve the office (id →
fetch), require it to have a `parentOfficeID` (else `'Office not in chain'`),
resolve the granting offices, pass if some granting office's `parentID`
equals the target office's id, and otherwise recurse on the target's
`parentOfficeID` with the granting offices as the new officer.  `fuel = 0`
yields `outOfFuel`, marking a computation that has not yet terminated. -/
def hasOverOfficeFuel (odb : List Office) (permission : String) :
    Nat → OfficeArg → OfficerArg → Except PermError Bool
  | 0, _, _ => .error .outOfFuel
  | fuel + 1, officeArg, officer => do
    let office ←
      match officeArg with
      | .byId i => fetchOffice odb i
      | .model o => Except.ok o
    match office.parentOfficeID with
    | none => Except.error PermError.officeNotInChain
    | some pid => do
      let offices ← has odb permission officer
      let officeParents := offices.map (fun o => o.parentID)
      if officeParents.any (fun x => x == some office.id) then Except.ok true
      else hasOverOfficeFuel odb permission fuel (.byId pid) (.resolved offices)

/-- `hasOverOffice` at a concrete argument diverges: no amount of fuel
makes it terminate. -/
def hasOverOfficeDiverges (odb : List Office) (permission : String)
    (officeArg : OfficeArg) (officer : OfficerArg) : Prop :=
  ∀ fuel, hasOverOfficeFuel odb permission fuel officeArg officer =
    Except.error PermError.outOfFuel

/-- ASCII lowercasing of one character, as `String.prototype.toLowerCase`
acts on the ASCII range the code deals in. -/
def lowerChar (c : Char) : Char :=
  if c.toNat ≥ 65 && c.toNat ≤ 90 then Char.ofNat (c.toNat + 32) else c

/-- `s.toLowerCase()` on ASCII strings. -/
def jsToLower (s : String) : String := String.mk (s.data.map lowerChar)

/-- The leading decimal-digit run of a character list, as a number; `none`
when there is no leading digit. -/
def leadingDigits (cs : List Char) : Option Nat :=
  digitsToNat (cs.takeWhile Char.isDigit)

/-- `Number.parseInt` on the strings this code passes it: an optional sign
followed by leading digits; `none` stands for `NaN`. -/
def jsParseInt (s : String) : Option Int :=
  match s.data with
  | '-' :: rest => (leadingDigits rest).map (fun n => -(n : Int))
  | '+' :: rest => (leadingDigits rest).map (fun n => (n : Int))
  | cs => (leadingDigits cs).map (fun n => (n : Int))

/-- `NaN !== x` in JavaScript is true for **every** x, including `NaN`
itself.  The routes' guards `if ( NaN !== Number.parseInt( id ) )`
(src/controllers/org-units.js lines 238 and 297) therefore always take the
numeric-id branch; this definition embeds that fact. -/
def jsNaNNeq (_ : Option Int) : Bool := true

/-- Modelled from the spec: `OrgUnit.getTypes()` lives in
`models/org_units.js`, which is not under `src/`; the spec fixes the type
vocabulary and its total order Nation < Region < Domain < Venue. -/
def getTypes : List String := ["Nation", "Region", "Domain", "Venue"]

/-! ## The search route (src/controllers/org-units.js lines 74-131) -/

/-- The recognized search query parameters (after `_.omit(…, 'token')`);
`none` is an absent key, `some ""` a present-but-empty one. -/
structure SearchParams where
  name : Option String
  code : Option String
  type : Option String
  venue : Option String
deriving Repr, DecidableEq

/-- JavaScript truthiness of a possibly-absent string: `undefined` and
`""` are falsy, every other string truthy. -/
def jsTruthy : Option String → Bool
  | none => false
  | some s => !(s == "")

/-- `_.mapValues( params, v => v.toLowerCase() )` on one value. -/
def lowerOpt : Option String → Option String
  | none => none
  | some s => some (jsToLower s)

/-- `_.mapValues( params, v => v.toLowerCase() )`. -/
def lowerParams (p : SearchParams) : SearchParams :=
  { name := lowerOpt p.name, code := lowerOpt p.code,
    type := lowerOpt p.type, venue := lowerOpt p.venue }

/-- `_.isEmpty( params )`: no key is present at all. -/
def searchIsEmpty (p : SearchParams) : Bool :=
  p.name == none && p.code == none && p.type == none && p.venue == none

/-- The search route's 400-level rejections, one per `UserError` site in
lines 79-101. -/
inductive SearchError where
  /-- `'No search params provided'` -/
  | noParams
  /-- `'Invalid type specified'` -/
  | invalidType
  /-- `'Invalid type with "venue" option'` -/
  | invalidVenueType
  /-- `'Venue type does not have codes'` -/
  | venueHasNoCodes
deriving Repr, DecidableEq

/-- Lines 92-96: a `venue` param with no `type` sets `type = 'venue'`; a
`venue` param with a type other than `venue` is rejected. -/
def searchVenueStep (q : SearchParams) : Except SearchError SearchParams :=
  if jsTruthy q.venue && q.type == none then .ok { q with type := some "venue" }
  else if jsTruthy q.venue && !(q.type == some "venue") then .error .invalidVenueType
  else .ok q

/-- The parameter-handling prefix of the search route (lines 77-116): empty
check, lowercasing, type validity, the venue/type interaction, and the
codes-for-venues rejection; on success it returns the effective (filter)
parameters. -/
def searchRoute (p : SearchParams) : Except SearchError SearchParams :=
  if searchIsEmpty p then .error .noParams
  else
    let q := lowerParams p
    if jsTruthy q.type && !((getTypes.map jsToLower).contains (q.type.getD "")) then
      .error .invalidType
    else
      match searchVenueStep q with
      | .error e => .error e
      | .ok q2 =>
        if jsTruthy q2.code && (jsTruthy q2.venue || q2.type == some "venue") then
          .error .venueHasNoCodes
        else .ok q2

/-! ## Shared persisted state -/

/-- The persisted rows the unit routes read and write. -/
structure DBState where
  units : List OrgUnit
  offices : List Office
  users : List User
deriving Repr, DecidableEq

/-! ## The create route (src/controllers/org-units.js lines 137-223) -/

/-- The request body of a create, field by field (`none` = key absent). -/
structure CreateData where
  parentID : Option Nat
  type : Option String
  name : Option String
  code : Option String
  venueType : Option String
  location : Option String
  defDoc : Option String
  website : Option String
deriving Repr, DecidableEq

/-- `_.isEmpty( data )` on the create body. -/
def dataIsEmpty (d : CreateData) : Bool :=
  d.parentID == none && d.type == none && d.name == none && d.code == none &&
  d.venueType == none && d.location == none && d.defDoc == none && d.website == none

/-- The create route's failure outcomes, one per rejection site. -/
inductive CreateError where
  /-- `'No data provided'` -/
  | noData
  /-- `'No parent provided'` -/
  | noParent
  /-- `'Invalid org unit type'` -/
  | invalidType
  /-- `'Parent not found'` -/
  | parentNotFound
  /-- a rejection from `hasOverUnit`, surfaced as 403 `'Authentication failed'` -/
  | authFailed (e : PermError)
  /-- `'Org type doesn't match expected type'` -/
  | typeMismatch
  /-- the ReferenceError thrown by line 189's `contraints.venueType.presence`
  (typo for `constraints`), surfaced as 403 `'Authentication failed'` -/
  | venueReferenceError
  /-- `'Invalid data provided: …'` -/
  | validationFailed
deriving Repr, DecidableEq

/-- Prefix test on character lists. -/
def charsPrefix : List Char → List Char → Bool
  | [], _ => true
  | _ :: _, [] => false
  | a :: as, b :: bs => a == b && charsPrefix as bs

/-- Modelled from the spec: the validation helper (`helpers/validation`,
not under `src/`) requires `website`, when supplied, to be a well-formed
URL; modelled as an http(s)-scheme check. -/
def isWellFormedUrl (s : String) : Bool :=
  charsPrefix "http://".data s.data || charsPrefix "https://".data s.data

/-- Modelled from the spec: `validate.async` (helpers/validation, not under
`src/`) applied to the create constraints of lines 177-187: `name` and
`code` required non-empty, `venueType` non-empty when supplied, `website` a
well-formed URL when supplied, `type` one of Venue/Domain/Region and
required.  (`parentPath` is set by the route itself and always non-empty;
`id` is never supplied by the route's callers.)  The additional
Venue-requires-`venueType` rule never runs: the line installing it throws
first (see `CreateError.venueReferenceError`). -/
def validateCreate (d : CreateData) : Bool :=
  (match d.name with | some s => !(s == "") | none => false) &&
  (match d.code with | some s => !(s == "") | none => false) &&
  (match d.venueType with | some s => !(s == "") | none => true) &&
  (match d.website with | some s => isWellFormedUrl s | none => true) &&
  (match d.type with | some t => ["Venue", "Domain", "Region"].contains t | none => false)

/-- The auto-increment id the insert allocates. -/
def nextId (units : List OrgUnit) : Nat := (units.map (fun u => u.id)).foldr max 0 + 1

/-- Modelled from the spec: the Tree Store `insert` recomputes nested-set
bounds; the new node is placed as the rightmost child of the parent
(interval `[parent.rgt, parent.rgt + 1]`) and every bound at or beyond
`parent.rgt` shifts right by 2. -/
def treeShiftForInsert (units : List OrgUnit) (parentRgt : Nat) : List OrgUnit :=
  units.map (fun v =>
    { v with lft := if parentRgt ≤ v.lft then v.lft + 2 else v.lft,
             rgt := if parentRgt ≤ v.rgt then v.rgt + 2 else v.rgt })

/-- The create route (lines 137-223): empty-body and parent-id checks
(`! data.parentID` — the id `0` is falsy in JavaScript and also rejects),
type vocabulary check (Nation can never be created), parent fetch,
permission check, rank-adjacency check, then — for Venue — the
`contraints` ReferenceError, else validation and the transactional insert
that saves the row and writes `parentPath = parent.parentPath + '.' + id`. -/
def createUnit (st : DBState) (d : CreateData) (officer : OfficerArg) :
    Except CreateError OrgUnit × DBState :=
  if dataIsEmpty d then (.error .noData, st)
  else
    match d.parentID with
    | none => (.error .noParent, st)
    | some 0 => (.error .noParent, st)
    | some pid =>
      match d.type with
      | none => (.error .invalidType, st)
      | some ty =>
        if !(getTypes.contains ty) || ty == "Nation" then (.error .invalidType, st)
        else
          match st.units.find? (fun v => v.id == pid) with
          | none => (.error .parentNotFound, st)
          | some parent =>
            match hasOverUnit st.units st.offices (some (.model parent))
                ("org_create_" ++ jsToLower ty) officer with
            | .error e => (.error (.authFailed e), st)
            | .ok _ =>
              if ((getTypes.indexOf ty : Int) - 1 != (getTypes.indexOf parent.type : Int)) then
                (.error .typeMismatch, st)
              else
                let path := parent.parentPath ++ "."
                if ty == "Venue" then (.error .venueReferenceError, st)
                else if validateCreate d then
                  let newId := nextId st.units
                  let newUnit : OrgUnit :=
                    { id := newId, code := d.code, name := d.name.getD "",
                      type := ty, parentID := some pid,
                      parentPath := path ++ toString newId,
                      lft := parent.rgt, rgt := parent.rgt + 1,
                      venueType := d.venueType, location := d.location,
                      defDoc := d.defDoc, website := d.website }
                  (.ok newUnit,
                    { st with units := treeShiftForInsert st.units parent.rgt ++ [newUnit] })
                else (.error .validationFailed, st)

/-! ## The update route's unit lookup (src/controllers/org-units.js lines 236-249) -/

/-- The PUT `/:id` target lookup: build the query by id or by code and
fetch.  The branch condition `NaN !== Number.parseInt( id )` is always
true (`jsNaNNeq`), so a non-numeric id string queries `where('id', NaN)`,
which matches no row; the `where('code', id)` branch is dead. -/
def putLookupUnit (udb : List OrgUnit) (idStr : String) : Option OrgUnit :=
  if jsNaNNeq (jsParseInt idStr) then
    match jsParseInt idStr with
    | some n => udb.find? (fun v => (v.id : Int) == n)
    | none => none
  else udb.find? (fun v => v.code == some idStr)

/-! ## The delete route (src/controllers/org-units.js lines 291-373) -/

/-- The delete route's failure outcomes, one per rejection site. -/
inductive DelError where
  /-- `'Cannot delete root org'` -/
  | cannotDeleteRoot
  /-- `'Org unit not found'` (404) -/
  | notFound
  /-- a rejection from `hasOverUnit`, surfaced as 403 -/
  | authFailed (e : PermError)
  /-- `'Cannot delete org with children'` -/
  | hasChildren
  /-- `'No parent found'` -/
  | noParent
deriving Repr, DecidableEq

/-- Modelled from the spec: `getChildren` (models/org_units.js, not under
`src/`) — the unit's child units. -/
def getChildren (udb : List OrgUnit) (u : OrgUnit) : List OrgUnit :=
  udb.filter (fun v => v.parentID == some u.id)

/-- Modelled from the spec: `parents()` (models/org_units.js, not under
`src/`) — the unit's ancestors, here in `parentPath` (root-first) order so
that `parents.pop()` — the last element — is the immediate parent, per the
spec's "reassign all users … to the unit's immediate parent". -/
def parentsRootFirst (udb : List OrgUnit) (u : OrgUnit) : List OrgUnit :=
  (parsePath u.parentPath).dropLast.filterMap (fun i => udb.find? (fun v => v.id == i))

/-- Modelled from the spec: the Tree Store `remove` — delete the row and
close its nested-set gap (bounds beyond the removed interval move left by
its width). -/
def removeAndCloseGap (udb : List OrgUnit) (u : OrgUnit) : List OrgUnit :=
  (udb.filter (fun v => !(v.id == u.id))).map (fun (v : OrgUnit) =>
    { v with lft := if u.rgt < v.lft then v.lft - (u.rgt - u.lft + 1) else v.lft,
             rgt := if u.rgt < v.rgt then v.rgt - (u.rgt - u.lft + 1) else v.rgt })

/-- The delete route (lines 291-373): parse the id (the `NaN !== id` guard
is always true, so lookup is always by the parsed id and the code branch
is dead), refuse to delete the root, fetch, permission check, refuse when
children exist, then in one transaction destroy the unit's offices,
reassign its users to the popped (last, i.e. immediate) parent — failing
with `'No parent found'` when there is none — and destroy the unit row. -/
def deleteUnit (st : DBState) (idStr : String) (officer : OfficerArg) :
    Except DelError Unit × DBState :=
  let pid := jsParseInt idStr
  if jsNaNNeq pid then
    if pid == some 1 then (.error .cannotDeleteRoot, st)
    else
      match (match pid with
             | some n => st.units.find? (fun v => (v.id : Int) == n)
             | none => none) with
      | none => (.error .notFound, st)
      | some unit =>
        match hasOverUnit st.units st.offices (some (.model unit))
            ("org_create_" ++ jsToLower unit.type) officer with
        | .error e => (.error (.authFailed e), st)
        | .ok _ =>
          if !(getChildren st.units unit).isEmpty then (.error .hasChildren, st)
          else
            match (parentsRootFirst st.units unit).getLast? with
            | none => (.error .noParent, st)
            | some parent =>
              (.ok (),
                { units := removeAndCloseGap st.units unit,
                  offices := st.offices.filter (fun o => !(o.parentOrgID == some unit.id)),
                  users := st.users.map (fun (us : User) =>
                    if us.orgUnit == some unit.id then { us with orgUnit := some parent.id }
                    else us) })
  else (.error .notFound, st)

/-! ## Concrete demonstration data

A small consistent world — Nation #1 ⊃ Region #2 ⊃ Domain #3 — used by the
witness theorems, mirroring the worked example in the spec. -/

/-- Nation #1, the root. -/
def rootUnit : OrgUnit :=
  { id := 1, code := none, name := "United States", type := "Nation",
    parentID := none, parentPath := "1", lft := 1, rgt := 6,
    venueType := none, location := none, defDoc := none, website := none }

/-- Region #2 under the root. -/
def regionUnit : OrgUnit :=
  { id := 2, code := some "NY", name := "New York", type := "Region",
    parentID := some 1, parentPath := "1.2", lft := 2, rgt := 5,
    venueType := none, location := none, defDoc := none, website := none }

/-- Domain #3 under Region #2, a leaf. -/
def domainUnit : OrgUnit :=
  { id := 3, code := some "NY-A", name := "Albany", type := "Domain",
    parentID := some 2, parentPath := "1.2.3", lft := 3, rgt := 4,
    venueType := none, location := none, defDoc := none, website := none }

/-- The demonstration unit table. -/
def demoUnits : List OrgUnit := [rootUnit, regionUnit, domainUnit]

/-- A national office (domain = root) held by user 7. -/
def natOffice : Office :=
  { id := 10, userID := 7,
    roles := some ["org_create_region", "org_create_domain", "org_create_venue"],
    parentOrgID := some 1, parentOfficeID := none, parentID := none }

/-- A regional office (domain = Region #2) held by user 8. -/
def regionOffice : Office :=
  { id := 11, userID := 8, roles := some ["org_update"],
    parentOrgID := some 2, parentOfficeID := none, parentID := none }

/-- An office held by user 9 whose roles do not include `org_update`. -/
def otherOffice : Office :=
  { id := 12, userID := 9, roles := some ["other_role"],
    parentOrgID := some 3, parentOfficeID := none, parentID := none }

/-- An office attached to Domain #3 (deleted along with it). -/
def domainOffice : Office :=
  { id := 13, userID := 5, roles := some [],
    parentOrgID := some 3, parentOfficeID := none, parentID := none }

/-- The demonstration office table. -/
def demoOffices : List Office := [natOffice, regionOffice, otherOffice, domainOffice]

/-- A user in Domain #3 and a user in Region #2. -/
def demoUsers : List User := [{ id := 20, orgUnit := some 3 }, { id := 21, orgUnit := some 2 }]

/-- The demonstration persisted state. -/
def demoState : DBState := { units := demoUnits, offices := demoOffices, users := demoUsers }

/-- Office A of the cyclic chain A→B→A (`parentOfficeID` of A is B). -/
def cycleOfficeA : Office :=
  { id := 1, userID := 0, roles := none,
    parentOrgID := none, parentOfficeID := some 2, parentID := none }

/-- Office B of the cyclic chain A→B→A (`parentOfficeID` of B is A). -/
def cycleOfficeB : Office :=
  { id := 2, userID := 0, roles := none,
    parentOrgID := none, parentOfficeID := some 1, parentID := none }

/-- A granting office carrying the permission but whose `parentID` (99)
matches neither office of the cycle. -/
def cycleGrantOffice : Office :=
  { id := 3, userID := 4, roles := some ["perm_x"],
    parentOrgID := none, parentOfficeID := none, parentID := some 99 }

/-- The office table containing the A→B→A cycle. -/
def cycleOffices : List Office := [cycleOfficeA, cycleOfficeB, cycleGrantOffice]

/-- A fully valid Venue create payload for Domain #3. -/
def venueData : CreateData :=
  { parentID := some 3, type := some "Venue", name := some "The Spot",
    code := some "TS", venueType := some "club", location := none,
    defDoc := none, website := none }

/-- A valid Domain create payload for Region #2. -/
def newDomainData : CreateData :=
  { parentID := some 2, type := some "Domain", name := some "Troy",
    code := some "NY-B", venueType := none, location := none,
    defDoc := none, website := some "http://troy.example.org" }

/-- Office A of the acyclic chain A→B→C (spec §8's example). -/
def chainOfficeA : Office :=
  { id := 21, userID := 0, roles := none,
    parentOrgID := none, parentOfficeID := some 22, parentID := none }

/-- Office B of the acyclic chain A→B→C. -/
def chainOfficeB : Office :=
  { id := 22, userID := 0, roles := none,
    parentOrgID := none, parentOfficeID := some 23, parentID := none }

/-- Office C, the end of the acyclic chain (no further parent office). -/
def chainOfficeC : Office :=
  { id := 23, userID := 0, roles := none,
    parentOrgID := none, parentOfficeID := none, parentID := none }

/-- A granting office whose `parentID` matches office B of the chain. -/
def chainGrantB : Office :=
  { id := 30, userID := 4, roles := some ["perm_x"],
    parentOrgID := none, parentOfficeID := none, parentID := some 22 }

/-- A granting office whose `parentID` (99) matches no office of the chain. -/
def chainGrantNone : Office :=
  { id := 31, userID := 4, roles := some ["perm_x"],
    parentOrgID := none, parentOfficeID := none, parentID := some 99 }

/-- The office table containing the acyclic chain A→B→C. -/
def chainOffices : List Office := [chainOfficeA, chainOfficeB, chainOfficeC]

deriving instance DecidableEq for Except

/-! ## Helper lemmas -/

theorem jsTruthy_none : jsTruthy none = false := rfl

theorem any_beq_iff (l : List (Option Nat)) (v : Option Nat) :
    l.any (fun x => x == v) = true ↔ v ∈ l := by
  simp [List.any_eq_true, beq_iff_eq]

theorem has_of_normalize (odb : List Office) (permission : String) (officer : OfficerArg)
    (offs : List Office) (h : normalizeOfficer odb officer = Except.ok offs) :
    has odb permission officer = Except.ok (offs.filter (fun o => hasRole o permission)) := by
  simp only [has, h, jsArrayFalsy, Bool.false_eq_true, if_false]
  rfl

theorem hasOverUnit_of_resolved (udb : List OrgUnit) (odb : List Office)
    (arg : Option UnitArg) (perm : String) (officer : OfficerArg)
    (offs : List Office) (u : OrgUnit)
    (hHas : has odb perm officer = Except.ok offs)
    (hU : resolveUnitArg udb arg = Except.ok u) :
    hasOverUnit udb odb arg perm officer =
      (if (offs.map (fun o => o.parentOrgID)).any (fun x => x == some 1) then Except.ok true
       else if (offs.map (fun o => o.parentOrgID)).any (fun x => x == some u.id) then
         Except.ok true
       else chainScan (offs.map (fun o => o.parentOrgID)) (getParents udb u)) := by
  simp only [hasOverUnit, hHas, hU]
  rfl

theorem hasOverUser_of_has (udb : List OrgUnit) (odb : List Office) (user : User)
    (perm : String) (officer : OfficerArg) (offs : List Office)
    (hHas : has odb perm officer = Except.ok offs) :
    hasOverUser udb odb user perm officer =
      (match user.orgUnit with
       | some uid =>
         if (offs.map (fun o => o.parentOrgID)).any (fun x => x == some uid) then Except.ok true
         else
           match udb.find? (fun v => v.id == uid) with
           | some unit => chainScan (offs.map (fun o => o.parentOrgID)) (getParents udb unit)
           | none => chainScan (offs.map (fun o => o.parentOrgID)) []
       | none =>
         if (offs.map (fun o => o.parentOrgID)).any (fun x => x == some 1) then Except.ok true
         else Except.error PermError.notNationalOfficer) := by
  simp only [hasOverUser, hHas]
  rfl

theorem chainScan_ok_iff (l : List (Option Nat)) (ps : List OrgUnit) :
    chainScan l ps = Except.ok true ↔ ∃ p ∈ ps, some p.id ∈ l := by
  induction ps with
  | nil => simp [chainScan]
  | cons p ps ih =>
    by_cases h : l.any (fun x => x == some p.id) = true
    · rw [show chainScan l (p :: ps) = Except.ok true by simp [chainScan, h]]
      constructor
      · intro _
        exact ⟨p, List.mem_cons_self p ps, (any_beq_iff l (some p.id)).mp h⟩
      · intro _
        rfl
    · rw [show chainScan l (p :: ps) = chainScan l ps by
        simp only [chainScan]; rw [if_neg h]]
      rw [ih]
      constructor
      · rintro ⟨q, hq, hmem⟩
        exact ⟨q, List.mem_cons_of_mem p hq, hmem⟩
      · rintro ⟨q, hq, hmem⟩
        rcases List.mem_cons.mp hq with hqp | hqps
        · subst hqp
          exact absurd ((any_beq_iff l (some q.id)).mpr hmem) h
        · exact ⟨q, hqps, hmem⟩

theorem chainScan_err (l : List (Option Nat)) (ps : List OrgUnit)
    (h : ¬ ∃ p ∈ ps, some p.id ∈ l) :
    chainScan l ps = Except.error PermError.chainNotFound := by
  induction ps with
  | nil => simp [chainScan]
  | cons p ps ih =>
    push_neg at h
    have h1 : some p.id ∉ l := h p (List.mem_cons_self p ps)
    have h2 : ¬ (l.any (fun x => x == some p.id) = true) := fun hc =>
      h1 ((any_beq_iff l (some p.id)).mp hc)
    simp only [chainScan]
    rw [if_neg h2]
    exact ih (by push_neg; intro q hq; exact h q (List.mem_cons_of_mem p hq))

/-- On the cyclic table A→B→A with a granting office matching neither
office, the bounded `hasOverOffice` exhausts every fuel bound from both
entry points (the two states of the period-2 cycle). -/
theorem cycle_aux (n : Nat) :
    hasOverOfficeFuel cycleOffices "perm_x" n (OfficeArg.byId 1)
      (OfficerArg.resolved [cycleGrantOffice]) = Except.error PermError.outOfFuel ∧
    hasOverOfficeFuel cycleOffices "perm_x" n (OfficeArg.byId 2)
      (OfficerArg.resolved [cycleGrantOffice]) = Except.error PermError.outOfFuel := by
  induction n with
  | zero => exact ⟨rfl, rfl⟩
  | succ n ih =>
    refine ⟨?_, ?_⟩
    · show hasOverOfficeFuel cycleOffices "perm_x" n (OfficeArg.byId 2)
        (OfficerArg.resolved [cycleGrantOffice]) = Except.error PermError.outOfFuel
      exact ih.2
    · show hasOverOfficeFuel cycleOffices "perm_x" n (OfficeArg.byId 1)
        (OfficerArg.resolved [cycleGrantOffice]) = Except.error PermError.outOfFuel
      exact ih.1

/-! ## Claim theorems -/

/-- Claim C1: when the officer's offices resolve and the unit argument
resolves to a unit `u`, `hasOverUnit` returns true iff some office held by
the officer has the permission in its roles and that office's
`parentOrgID` is the root unit (id 1), the target unit itself, or an
ancestor of the target unit; when no such office exists it fails with the
chain-not-found error; and an absent unit argument behaves exactly as the
root unit id 1. -/
theorem hasOverUnit_grant_iff_chain (udb : List OrgUnit) (odb : List Office)
    (arg : Option UnitArg) (perm : String) (officer : OfficerArg)
    (allOffs : List Office) (u : OrgUnit)
    (hN : normalizeOfficer odb officer = Except.ok allOffs)
    (hU : resolveUnitArg udb arg = Except.ok u) :
    (hasOverUnit udb odb arg perm officer = Except.ok true ↔
       ∃ o ∈ allOffs, hasRole o perm = true ∧
         (o.parentOrgID = some 1 ∨ o.parentOrgID = some u.id ∨
          ∃ a ∈ getParents udb u, o.parentOrgID = some a.id)) ∧
    ((¬ ∃ o ∈ allOffs, hasRole o perm = true ∧
         (o.parentOrgID = some 1 ∨ o.parentOrgID = some u.id ∨
          ∃ a ∈ getParents udb u, o.parentOrgID = some a.id)) →
       hasOverUnit udb odb arg perm officer = Except.error PermError.chainNotFound) ∧
    hasOverUnit udb odb none perm officer =
      hasOverUnit udb odb (some (UnitArg.byId 1)) perm officer := by
  have hHas := has_of_normalize odb perm officer allOffs hN
  have hrw := hasOverUnit_of_resolved udb odb arg perm officer
    (allOffs.filter (fun o => hasRole o perm)) u hHas hU
  set offs := allOffs.filter (fun o => hasRole o perm) with hoffs
  set L := offs.map (fun o => o.parentOrgID) with hL
  have hmem' : ∀ v : Option Nat,
      v ∈ L ↔ ∃ o ∈ allOffs, hasRole o perm = true ∧ o.parentOrgID = v := by
    intro v
    rw [hL, hoffs]
    simp only [List.mem_map, List.mem_filter]
    constructor
    · rintro ⟨o, ⟨ho, hr⟩, hpo⟩
      exact ⟨o, ho, hr, hpo⟩
    · rintro ⟨o, ho, hr, hpo⟩
      exact ⟨o, ⟨ho, hr⟩, hpo⟩
  refine ⟨?_, ?_, ?_⟩
  · rw [hrw]
    by_cases hc1 : L.any (fun x => x == some 1) = true
    · rw [if_pos hc1]
      constructor
      · intro _
        obtain ⟨o, ho, hr, hpo⟩ := (hmem' (some 1)).mp ((any_beq_iff L (some 1)).mp hc1)
        exact ⟨o, ho, hr, Or.inl hpo⟩
      · intro _
        rfl
    · rw [if_neg hc1]
      by_cases hc2 : L.any (fun x => x == some u.id) = true
      · rw [if_pos hc2]
        constructor
        · intro _
          obtain ⟨o, ho, hr, hpo⟩ := (hmem' (some u.id)).mp ((any_beq_iff L (some u.id)).mp hc2)
          exact ⟨o, ho, hr, Or.inr (Or.inl hpo)⟩
        · intro _
          rfl
      · rw [if_neg hc2]
        rw [chainScan_ok_iff]
        constructor
        · rintro ⟨p, hp, hmemp⟩
          obtain ⟨o, ho, hr, hpo⟩ := (hmem' (some p.id)).mp hmemp
          exact ⟨o, ho, hr, Or.inr (Or.inr ⟨p, hp, hpo⟩)⟩
        · rintro ⟨o, ho, hr, h1 | h2 | ⟨a, ha, hpa⟩⟩
          · exact absurd ((any_beq_iff L (some 1)).mpr
              ((hmem' (some 1)).mpr ⟨o, ho, hr, h1⟩)) hc1
          · exact absurd ((any_beq_iff L (some u.id)).mpr
              ((hmem' (some u.id)).mpr ⟨o, ho, hr, h2⟩)) hc2
          · exact ⟨a, ha, (hmem' (some a.id)).mpr ⟨o, ho, hr, hpa⟩⟩
  · intro hF
    rw [hrw]
    have hc1 : ¬ (L.any (fun x => x == some 1) = true) := fun hc => by
      obtain ⟨o, ho, hr, hpo⟩ := (hmem' (some 1)).mp ((any_beq_iff L (some 1)).mp hc)
      exact hF ⟨o, ho, hr, Or.inl hpo⟩
    have hc2 : ¬ (L.any (fun x => x == some u.id) = true) := fun hc => by
      obtain ⟨o, ho, hr, hpo⟩ := (hmem' (some u.id)).mp ((any_beq_iff L (some u.id)).mp hc)
      exact hF ⟨o, ho, hr, Or.inr (Or.inl hpo)⟩
    rw [if_neg hc1, if_neg hc2]
    apply chainScan_err
    rintro ⟨p, hp, hmemp⟩
    obtain ⟨o, ho, hr, hpo⟩ := (hmem' (some p.id)).mp hmemp
    exact hF ⟨o, ho, hr, Or.inr (Or.inr ⟨p, hp, hpo⟩)⟩
  · rfl

/-- Witness for C1: the spec's worked example — an officer holding an
`org_update` office over Region #2 passes `hasOverUnit` on Domain #3,
because Region #2 is an ancestor of Domain #3. -/
theorem hasOverUnit_grant_iff_chain_witness :
    hasOverUnit demoUnits demoOffices (some (UnitArg.byId 3)) "org_update"
      (OfficerArg.userId 8) = Except.ok true := by
  have h := hasOverUnit_grant_iff_chain demoUnits demoOffices (some (UnitArg.byId 3))
    "org_update" (OfficerArg.userId 8) [regionOffice] domainUnit (by decide) (by decide)
  exact h.1.mpr ⟨regionOffice, by decide, by decide,
    Or.inr (Or.inr ⟨regionUnit, by decide, by decide⟩)⟩

/-- Claim C2 (refuted, code bug): `has` does fail when the officer holds
no office at all, but when the officer holds offices and none carries the
permission it returns the **empty** granting set instead of failing — the
source's `if ( ! offices )` tests array truthiness, which is always false,
so the `'No offices with permission'` throw is dead code.  User 9 holds
exactly one office, without `org_update`, and `has` returns `ok []`. -/
theorem has_returns_empty_grant_set :
    (demoOffices.filter (fun o => o.userID == 9)).length = 1 ∧
    hasRole otherOffice "org_update" = false ∧
    has demoOffices "org_update" (OfficerArg.userId 9) = Except.ok [] ∧
    has demoOffices "org_update" (OfficerArg.userId 99) =
      Except.error PermError.userHasNoOffices := by decide

/-- Claim C3 (refuted in its cycle half, code bug): `hasOverOffice` does
stop when a granting office's `parentID` matches the current office (the
A→B→C chain with a grant on B succeeds from A), and does stop when the
chain reaches an office without a further parent office (the same chain
with a matchless grant ends in the not-in-chain error at C); but on the
cyclic chain A→B→A with a matchless grant it never terminates — there is
no cycle-detection error in the source, every fuel bound is exhausted. -/
theorem hasOverOffice_stops_or_diverges :
    hasOverOfficeFuel chainOffices "perm_x" 3 (OfficeArg.byId 21)
      (OfficerArg.resolved [chainGrantB]) = Except.ok true ∧
    hasOverOfficeFuel chainOffices "perm_x" 5 (OfficeArg.byId 21)
      (OfficerArg.resolved [chainGrantNone]) =
        Except.error PermError.officeNotInChain ∧
    hasOverOfficeDiverges cycleOffices "perm_x" (OfficeArg.byId 1)
      (OfficerArg.resolved [cycleGrantOffice]) :=
  ⟨by decide, by decide, fun n => (cycle_aux n).1⟩

/-- Claim C4: deleting a unit that has at least one child unit fails with
the has-children error and performs no writes — the resulting state equals
the input state, so no office is deleted, no user is reassigned, and the
unit rows with their nested-set bounds are unchanged. -/
theorem delete_with_children_is_blocked (st : DBState) (idStr : String)
    (officer : OfficerArg) (n : Int) (u : OrgUnit)
    (hparse : jsParseInt idStr = some n) (hne : n ≠ 1)
    (hfind : st.units.find? (fun v => (v.id : Int) == n) = some u)
    (hauth : hasOverUnit st.units st.offices (some (UnitArg.model u))
      ("org_create_" ++ jsToLower u.type) officer = Except.ok true)
    (hkids : (getChildren st.units u).isEmpty = false) :
    deleteUnit st idStr officer = (Except.error DelError.hasChildren, st) := by
  have hne' : (some n == some (1 : Int)) = false := by simp [hne]
  simp only [deleteUnit, hparse, jsNaNNeq, hne', Bool.false_eq_true, if_false, if_true,
    hfind, hauth, hkids, Bool.not_false]

/-- Witness for C4: Region #2 has the child Domain #3, so its delete by
the authorized national officer (user 7) fails with the has-children error
and leaves the state untouched. -/
theorem delete_with_children_is_blocked_witness :
    deleteUnit demoState "2" (OfficerArg.userId 7) =
      (Except.error DelError.hasChildren, demoState) := by
  exact delete_with_children_is_blocked demoState "2" (OfficerArg.userId 7) 2 regionUnit
    (by decide) (by decide) (by decide) (by decide) (by decide)

/-- Claim C5: an authorized delete of a leaf unit reassigns every user
whose `orgUnit` is the unit to the unit's immediate parent
(`unit.parentID`), deletes every office whose `parentOrgID` is the unit,
and removes the unit row (closing the nested-set gap), all as one state
transition; when the unit has no parent it fails with the no-parent error
and performs no writes. -/
theorem delete_leaf_reassigns_and_removes (st : DBState) (idStr : String)
    (officer : OfficerArg) (n : Int) (u : OrgUnit)
    (hparse : jsParseInt idStr = some n) (hne : n ≠ 1)
    (hfind : st.units.find? (fun v => (v.id : Int) == n) = some u)
    (hauth : hasOverUnit st.units st.offices (some (UnitArg.model u))
      ("org_create_" ++ jsToLower u.type) officer = Except.ok true)
    (hleaf : (getChildren st.units u).isEmpty = true) :
    ((parentsRootFirst st.units u).getLast? = none →
       deleteUnit st idStr officer = (Except.error DelError.noParent, st)) ∧
    (∀ par, (parentsRootFirst st.units u).getLast? = some par → u.parentID = some par.id →
       deleteUnit st idStr officer =
         (Except.ok (),
          { units := removeAndCloseGap st.units u,
            offices := st.offices.filter (fun o => !(o.parentOrgID == some u.id)),
            users := st.users.map (fun (us : User) =>
              if us.orgUnit == some u.id then { us with orgUnit := u.parentID } else us) })) := by
  have hne' : (some n == some (1 : Int)) = false := by simp [hne]
  constructor
  · intro hpar
    simp only [deleteUnit, hparse, jsNaNNeq, hne', Bool.false_eq_true, if_false, if_true,
      hfind, hauth, hleaf, Bool.not_true, hpar]
  · intro par hpar hpid
    simp only [deleteUnit, hparse, jsNaNNeq, hne', Bool.false_eq_true, if_false, if_true,
      hfind, hauth, hleaf, Bool.not_true, hpar, hpid]

/-- Witness for C5: deleting leaf Domain #3 as the authorized national
officer reassigns user 20 (the one user in the domain) to Region #2,
drops the two offices attached to the domain, and removes the unit row. -/
theorem delete_leaf_reassigns_and_removes_witness :
    deleteUnit demoState "3" (OfficerArg.userId 7) =
      (Except.ok (),
       { units := removeAndCloseGap demoUnits domainUnit,
         offices := demoOffices.filter (fun o => !(o.parentOrgID == some domainUnit.id)),
         users := demoUsers.map (fun (us : User) =>
           if us.orgUnit == some domainUnit.id then { us with orgUnit := domainUnit.parentID }
           else us) }) := by
  exact (delete_leaf_reassigns_and_removes demoState "3" (OfficerArg.userId 7) 3 domainUnit
    (by decide) (by decide) (by decide) (by decide) (by decide)).2 regionUnit
    (by decide) (by decide)

/-- Claim C6: a successful create inserts exactly one new row, and that
row's `parentPath` is the parent's `parentPath` followed by `'.'` followed
by the new unit's own id — the state after the single transactional
transition already holds the finished path, with the new id allocated by
the insert. -/
theorem create_writes_child_parentPath (st : DBState) (d : CreateData)
    (officer : OfficerArg) (pid : Nat) (ty : String) (parent : OrgUnit)
    (hne : dataIsEmpty d = false)
    (hpid : d.parentID = some pid) (hpid0 : pid ≠ 0)
    (hty : d.type = some ty)
    (htyok : (!(getTypes.contains ty) || ty == "Nation") = false)
    (hfind : st.units.find? (fun v => v.id == pid) = some parent)
    (hauth : hasOverUnit st.units st.offices (some (UnitArg.model parent))
      ("org_create_" ++ jsToLower ty) officer = Except.ok true)
    (hrank : (((getTypes.indexOf ty : Int) - 1) != (getTypes.indexOf parent.type : Int)) = false)
    (hnotV : (ty == "Venue") = false)
    (hval : validateCreate d = true) :
    ∃ nu, createUnit st d officer =
        (Except.ok nu, { st with units := treeShiftForInsert st.units parent.rgt ++ [nu] }) ∧
      nu.parentPath = parent.parentPath ++ "." ++ toString nu.id ∧
      nu.id = nextId st.units := by
  obtain ⟨m, rfl⟩ : ∃ m, pid = m + 1 := Nat.exists_eq_succ_of_ne_zero hpid0
  refine ⟨OrgUnit.mk (nextId st.units) d.code (d.name.getD "") ty (some (m + 1))
      ((parent.parentPath ++ ".") ++ toString (nextId st.units))
      parent.rgt (parent.rgt + 1) d.venueType d.location d.defDoc d.website, ?_, ?_, ?_⟩
  · simp only [createUnit, hne, Bool.false_eq_true, if_false, hpid, hty, htyok, hfind,
      hauth, hrank, hnotV, hval, if_true]
  · simp [String.append_assoc]
  · rfl

/-- Witness for C6: creating a Domain under Region #2 (parentPath `"1.2"`)
as the national officer yields a unit with id 4 and parentPath `"1.2.4"`. -/
theorem create_writes_child_parentPath_witness :
    ∃ nu, createUnit demoState newDomainData (OfficerArg.userId 7) =
        (Except.ok nu,
         { demoState with
             units := treeShiftForInsert demoState.units regionUnit.rgt ++ [nu] }) ∧
      nu.parentPath = regionUnit.parentPath ++ "." ++ toString nu.id ∧
      nu.id = nextId demoState.units := by
  exact create_writes_child_parentPath demoState newDomainData (OfficerArg.userId 7)
    2 "Domain" regionUnit (by decide) (by decide) (by decide) (by decide) (by decide)
    (by decide) (by decide) (by decide) (by decide) (by decide)

/-- Claim C7 (refuted in its venueType half, code bug): the create route
does require name/code, checks the website URL and restricts `type` to
Venue/Domain/Region — but `venueType` presence for venues is never
enforced, because line 189 reads the undefined name `contraints` (a typo
for `constraints`) and throws a ReferenceError for **every** Venue create,
surfaced as a 403 instead of a `ValidationError`: a fully valid Venue
payload fails and the state is unchanged. -/
theorem create_venue_always_reference_error :
    validateCreate venueData = true ∧
    createUnit demoState venueData (OfficerArg.userId 7) =
      (Except.error CreateError.venueReferenceError, demoState) := by decide

/-- Claim C8 (refuted in its by-code half, code bug): the update route's
guard `NaN !== Number.parseInt( id )` is true for every id string (in
JavaScript `NaN !== x` always holds), so the lookup is always by parsed
numeric id; a valid unit code such as `"NY"` parses to NaN, matches no
row, and 404s even though a unit with that code exists, while numeric-id
lookup works. -/
theorem update_lookup_by_code_misses :
    regionUnit ∈ demoUnits ∧ regionUnit.code = some "NY" ∧
    putLookupUnit demoUnits "NY" = none ∧
    putLookupUnit demoUnits "2" = some regionUnit := by decide

/-- Claim C9: when the officer's offices resolve, `hasOverUser` on a user
without an `orgUnit` grants iff some office held by the officer carries
the permission with domain the root unit (id 1); on a user with an
`orgUnit` whose unit row exists, it grants iff such an office's domain
equals the user's unit or an ancestor of it, and otherwise fails with the
chain-not-found error. -/
theorem hasOverUser_grant_iff_chain (udb : List OrgUnit) (odb : List Office) (perm : String)
    (officer : OfficerArg) (allOffs : List Office) (user : User)
    (hN : normalizeOfficer odb officer = Except.ok allOffs) :
    (user.orgUnit = none →
       (hasOverUser udb odb user perm officer = Except.ok true ↔
          ∃ o ∈ allOffs, hasRole o perm = true ∧ o.parentOrgID = some 1)) ∧
    (∀ uid unit, user.orgUnit = some uid → udb.find? (fun v => v.id == uid) = some unit →
       ((hasOverUser udb odb user perm officer = Except.ok true ↔
           ∃ o ∈ allOffs, hasRole o perm = true ∧
             (o.parentOrgID = some uid ∨
              ∃ a ∈ getParents udb unit, o.parentOrgID = some a.id)) ∧
        ((¬ ∃ o ∈ allOffs, hasRole o perm = true ∧
             (o.parentOrgID = some uid ∨
              ∃ a ∈ getParents udb unit, o.parentOrgID = some a.id)) →
           hasOverUser udb odb user perm officer = Except.error PermError.chainNotFound))) := by
  have hHas := has_of_normalize odb perm officer allOffs hN
  have hrw := hasOverUser_of_has udb odb user perm officer
    (allOffs.filter (fun o => hasRole o perm)) hHas
  set offs := allOffs.filter (fun o => hasRole o perm) with hoffs
  set L := offs.map (fun o => o.parentOrgID) with hL
  have hmem' : ∀ v : Option Nat,
      v ∈ L ↔ ∃ o ∈ allOffs, hasRole o perm = true ∧ o.parentOrgID = v := by
    intro v
    rw [hL, hoffs]
    simp only [List.mem_map, List.mem_filter]
    constructor
    · rintro ⟨o, ⟨ho, hr⟩, hpo⟩
      exact ⟨o, ho, hr, hpo⟩
    · rintro ⟨o, ho, hr, hpo⟩
      exact ⟨o, ⟨ho, hr⟩, hpo⟩
  constructor
  · intro hu
    rw [hrw, hu]
    by_cases hc : L.any (fun x => x == some 1) = true
    · rw [if_pos hc]
      constructor
      · intro _
        exact (hmem' (some 1)).mp ((any_beq_iff L (some 1)).mp hc)
      · intro _
        rfl
    · rw [if_neg hc]
      constructor
      · intro h
        exact absurd h (by simp)
      · rintro ⟨o, ho, hr, hpo⟩
        exact absurd ((any_beq_iff L (some 1)).mpr ((hmem' (some 1)).mpr ⟨o, ho, hr, hpo⟩)) hc
  · intro uid unit hu hfind
    rw [hrw, hu]
    simp only [hfind]
    constructor
    · by_cases hc : L.any (fun x => x == some uid) = true
      · rw [if_pos hc]
        constructor
        · intro _
          obtain ⟨o, ho, hr, hpo⟩ := (hmem' (some uid)).mp ((any_beq_iff L (some uid)).mp hc)
          exact ⟨o, ho, hr, Or.inl hpo⟩
        · intro _
          rfl
      · rw [if_neg hc]
        rw [chainScan_ok_iff]
        constructor
        · rintro ⟨p, hp, hmemp⟩
          obtain ⟨o, ho, hr, hpo⟩ := (hmem' (some p.id)).mp hmemp
          exact ⟨o, ho, hr, Or.inr ⟨p, hp, hpo⟩⟩
        · rintro ⟨o, ho, hr, h1 | ⟨a, ha, hpa⟩⟩
          · exact absurd ((any_beq_iff L (some uid)).mpr
              ((hmem' (some uid)).mpr ⟨o, ho, hr, h1⟩)) hc
          · exact ⟨a, ha, (hmem' (some a.id)).mpr ⟨o, ho, hr, hpa⟩⟩
    · intro hF
      have hc : ¬ (L.any (fun x => x == some uid) = true) := fun hc => by
        obtain ⟨o, ho, hr, hpo⟩ := (hmem' (some uid)).mp ((any_beq_iff L (some uid)).mp hc)
        exact hF ⟨o, ho, hr, Or.inl hpo⟩
      rw [if_neg hc]
      apply chainScan_err
      rintro ⟨p, hp, hmemp⟩
      obtain ⟨o, ho, hr, hpo⟩ := (hmem' (some p.id)).mp hmemp
      exact hF ⟨o, ho, hr, Or.inr ⟨p, hp, hpo⟩⟩

/-- Witness for C9: the officer holding the `org_update` office over
Region #2 passes `hasOverUser` on a user attached to Domain #3 — the
office domain is an ancestor of the user's unit. -/
theorem hasOverUser_grant_iff_chain_witness :
    hasOverUser demoUnits demoOffices (User.mk 20 (some 3)) "org_update"
      (OfficerArg.userId 8) = Except.ok true := by
  have h := (hasOverUser_grant_iff_chain demoUnits demoOffices "org_update"
    (OfficerArg.userId 8) [regionOffice] (User.mk 20 (some 3)) (by decide)).2
    3 domainUnit (by decide) (by decide)
  exact h.1.mpr ⟨regionOffice, by decide, by decide,
    Or.inr ⟨regionUnit, by decide, by decide⟩⟩

/-- Claim C10: in the search route, a truthy `venue` parameter with no
`type` key makes the effective type filter `venue`; a truthy `venue` with
any type other than `venue` is rejected with a client error; and a truthy
`code` when searching venues (by truthy `venue` or by `type = venue`) is
rejected with a client error. -/
theorem search_venue_code_rules (p : SearchParams) :
    (jsTruthy (lowerParams p).venue = true → (lowerParams p).type = none →
       jsTruthy (lowerParams p).code = false →
       searchRoute p = Except.ok
         (SearchParams.mk (lowerParams p).name (lowerParams p).code (some "venue")
           (lowerParams p).venue)) ∧
    (∀ t, jsTruthy (lowerParams p).venue = true → (lowerParams p).type = some t →
       t ≠ "venue" → ∃ e, searchRoute p = Except.error e) ∧
    (jsTruthy (lowerParams p).code = true →
       (jsTruthy (lowerParams p).venue = true ∨ (lowerParams p).type = some "venue") →
       ∃ e, searchRoute p = Except.error e) := by
  have hne : ∀ (_ : p.venue ≠ none ∨ p.code ≠ none), searchIsEmpty p = false := by
    intro hv
    rcases hv with hv | hv
    · simp [searchIsEmpty, hv]
    · simp [searchIsEmpty, hv]
  have hvp : jsTruthy (lowerParams p).venue = true → p.venue ≠ none := by
    intro hv h
    rw [show (lowerParams p).venue = none by simp [lowerParams, lowerOpt, h]] at hv
    simp [jsTruthy] at hv
  have hcp : jsTruthy (lowerParams p).code = true → p.code ≠ none := by
    intro hc h
    rw [show (lowerParams p).code = none by simp [lowerParams, lowerOpt, h]] at hc
    simp [jsTruthy] at hc
  refine ⟨?_, ?_, ?_⟩
  · intro hv ht hc
    have hempty := hne (Or.inl (hvp hv))
    simp only [searchRoute, hempty, Bool.false_eq_true, if_false]
    generalize hq : lowerParams p = q at hv ht hc ⊢
    obtain ⟨qn, qc, qt, qv⟩ := q
    simp only at hv ht hc
    subst ht
    simp [searchVenueStep, hv, hc, jsTruthy_none]
  · intro t hv ht hneq
    have hempty := hne (Or.inl (hvp hv))
    simp only [searchRoute, hempty, Bool.false_eq_true, if_false]
    generalize hq : lowerParams p = q at hv ht ⊢
    obtain ⟨qn, qc, qt, qv⟩ := q
    simp only at hv ht
    subst ht
    by_cases c1 : (jsTruthy (some t) &&
        !((getTypes.map jsToLower).contains ((some t).getD ""))) = true
    · rw [if_pos c1]
      exact ⟨SearchError.invalidType, rfl⟩
    · rw [if_neg c1]
      refine ⟨SearchError.invalidVenueType, ?_⟩
      simp [searchVenueStep, hv, hneq]
  · intro hc hor
    have hempty := hne (Or.inr (hcp hc))
    simp only [searchRoute, hempty, Bool.false_eq_true, if_false]
    generalize hq : lowerParams p = q at hc hor ⊢
    obtain ⟨qn, qc, qt, qv⟩ := q
    simp only at hc hor
    by_cases c1 : (jsTruthy qt && !((getTypes.map jsToLower).contains (qt.getD ""))) = true
    · rw [if_pos c1]
      exact ⟨SearchError.invalidType, rfl⟩
    · rw [if_neg c1]
      by_cases hqv : jsTruthy qv = true
      · by_cases hqt0 : qt = none
        · subst hqt0
          refine ⟨SearchError.venueHasNoCodes, ?_⟩
          simp [searchVenueStep, hqv, hc]
        · by_cases hqt : qt = some "venue"
          · subst hqt
            refine ⟨SearchError.venueHasNoCodes, ?_⟩
            simp [searchVenueStep, hqv, hc]
          · refine ⟨SearchError.invalidVenueType, ?_⟩
            simp [searchVenueStep, hqv, hqt0, hqt]
      · have hqt : qt = some "venue" := hor.resolve_left hqv
        subst hqt
        refine ⟨SearchError.venueHasNoCodes, ?_⟩
        simp [searchVenueStep, hqv, hc]

/-- Witness for C10: searching with only `venue=Club` succeeds with the
effective type filter set to `venue`. -/
theorem search_venue_code_rules_witness :
    searchRoute (SearchParams.mk none none none (some "Club")) =
      Except.ok (SearchParams.mk none none (some "venue") (some "club")) := by
  have h := (search_venue_code_rules (SearchParams.mk none none none (some "Club"))).1
    (by decide) (by decide) (by decide)
  exact h
